import Mathlib

/-!
Verification of the SENTINEL honeypot backend (server.js, geminiService.ts,
App.tsx) against its natural-language specification.

The backend is a single-threaded JavaScript (Node.js) program.  Its request
handler `engageHandler` suspends only at two `await` points: the LLM call and
the outbound callback fetch.  The whole region from reading the stored
session (`sessionStore.get`) to marking `callbackSent = true` and starting
the callback contains no `await`, so under the JavaScript event loop the
read-merge-write-mark sections of concurrent requests execute atomically, in
some sequential order.  Concurrency for one session is therefore modelled as
an arbitrary sequence of atomic turn steps (`runTurns`), each turn carrying
the outcome of its own LLM call and of its own callback fetch.

Machine integers do not occur (message counts are small JS numbers used as
exact naturals), and JS string sets (`new Set([...])`) are modelled as
first-occurrence deduplication of lists (`jsSetDedup`).
-/

/-- One field bundle of extracted intelligence, from the
`extractedIntelligence` schema shared by server.js and types.ts. -/
structure Intel where
  bankAccounts : List String
  upiIds : List String
  phishingLinks : List String
  phoneNumbers : List String
  suspiciousKeywords : List String
deriving DecidableEq, Repr

/-- `[...new Set(l)]` in JS: keep the first occurrence of each element,
in order. -/
def jsSetDedup : List String → List String
  | [] => []
  | x :: xs => x :: jsSetDedup (xs.filter (fun y => y != x))
termination_by l => l.length
decreasing_by
  simp only [List.length_cons]
  exact Nat.lt_succ_of_le (List.length_filter_le _ _)

theorem mem_jsSetDedup {a : String} : ∀ {l : List String}, a ∈ jsSetDedup l ↔ a ∈ l := by
  intro l
  induction l using jsSetDedup.induct with
  | case1 => simp [jsSetDedup]
  | case2 x xs ih =>
      rw [jsSetDedup]
      by_cases hax : a = x
      · subst hax; simp
      · simp only [List.mem_cons, hax, false_or, ih, List.mem_filter]
        constructor
        · exact fun h => h.1
        · intro h
          refine ⟨h, ?_⟩
          simpa [bne_iff_ne] using hax

theorem toFinset_jsSetDedup (l : List String) :
    (jsSetDedup l).toFinset = l.toFinset := by
  ext a
  simp [List.mem_toFinset, mem_jsSetDedup]

/-- The field-wise JS set-union merge of two intelligence fragments, from
server.js lines 184-190 (`mergedIntel`); App.tsx lines 41-47 use the same
`Array.from(new Set([...a, ...b]))` formula. -/
def mergeIntel (a b : Intel) : Intel where
  bankAccounts := jsSetDedup (a.bankAccounts ++ b.bankAccounts)
  upiIds := jsSetDedup (a.upiIds ++ b.upiIds)
  phishingLinks := jsSetDedup (a.phishingLinks ++ b.phishingLinks)
  phoneNumbers := jsSetDedup (a.phoneNumbers ++ b.phoneNumbers)
  suspiciousKeywords := jsSetDedup (a.suspiciousKeywords ++ b.suspiciousKeywords)

/-- Field-wise equality of intelligence fragments as sets (entry order and
multiplicity ignored, matching the spec's "entries unique, order
irrelevant"). -/
def IntelSetEq (a b : Intel) : Prop :=
  a.bankAccounts.toFinset = b.bankAccounts.toFinset ∧
  a.upiIds.toFinset = b.upiIds.toFinset ∧
  a.phishingLinks.toFinset = b.phishingLinks.toFinset ∧
  a.phoneNumbers.toFinset = b.phoneNumbers.toFinset ∧
  a.suspiciousKeywords.toFinset = b.suspiciousKeywords.toFinset

/-- Claim C3: the intelligence merge is field-wise exact-match set union:
merge is commutative and associative as sets, and merging a fragment into
itself is a no-op as sets. -/
theorem c3_merge_comm_assoc_idem (a b c : Intel) :
    IntelSetEq (mergeIntel a b) (mergeIntel b a) ∧
    IntelSetEq (mergeIntel (mergeIntel a b) c) (mergeIntel a (mergeIntel b c)) ∧
    IntelSetEq (mergeIntel a a) a := by
  refine ⟨?_, ?_, ?_⟩ <;>
    simp only [IntelSetEq, mergeIntel, toFinset_jsSetDedup, List.toFinset_append] <;>
    refine ⟨?_, ?_, ?_, ?_, ?_⟩ <;>
    first
      | exact Finset.union_comm _ _
      | exact Finset.union_assoc _ _ _
      | exact Finset.union_self _

/-- A chat message as sent in requests (types.ts `Message`; the wall-clock
`timestamp` field is never read by any modelled code path and is omitted). -/
structure Message where
  sender : String
  text : String
deriving DecidableEq, Repr

/-- The structured classification result parsed from the LLM response
(server.js `RESPONSE_SCHEMA`). -/
structure AiData where
  scamDetected : Bool
  reply : String
  isEngagementComplete : Bool
  extractedIntelligence : Intel
  agentNotes : String
deriving DecidableEq, Repr

/-- The empty intelligence fragment (server.js lines 174-180). -/
def emptyIntel : Intel :=
  { bankAccounts := [], upiIds := [], phishingLinks := [],
    phoneNumbers := [], suspiciousKeywords := [] }

/-- The deterministic fallback classification substituted when the LLM call
times out or its result cannot be parsed (server.js lines 157-169). -/
def fallbackAiData : AiData where
  scamDetected := true
  reply := "Can you explain this more clearly?"
  isEngagementComplete := true
  extractedIntelligence :=
    { bankAccounts := [], upiIds := [], phishingLinks := [],
      phoneNumbers := [], suspiciousKeywords := ["urgent", "verify"] }
  agentNotes := "Fallback response due to LLM failure"

/-- Outcome of the deadline-raced LLM call (server.js lines 140-153):
either a parsed result, a `withTimeout` rejection (`LLM_TIMEOUT`), or a
`JSON.parse` failure.  Both failure modes land in the same `catch`. -/
inductive LlmOutcome where
  | ok (data : AiData)
  | timeout
  | unparseable
deriving DecidableEq, Repr

/-- The `aiData` value engageHandler proceeds with: the parsed result on
success, the fixed fallback on either failure mode (server.js lines
137-170). -/
def resolveAiData : LlmOutcome → AiData
  | .ok data => data
  | .timeout => fallbackAiData
  | .unparseable => fallbackAiData

/-- One stored session record (server.js lines 173-182 and 194-198).  The
freshly created default carries no `totalMessages` field, hence `Option`. -/
structure SessionRec where
  intel : Intel
  totalMessages : Option Nat
  callbackSent : Bool
deriving DecidableEq, Repr

/-- The in-process session map keyed by session id (server.js
`sessionStore`). -/
def Store : Type := String → Option SessionRec

def Store.set (s : Store) (sid : String) (rec : SessionRec) : Store :=
  fun k => if k = sid then some rec else s k

def emptyStore : Store := fun _ => none

/-- The default record used when a session id is seen for the first time
(server.js lines 173-182). -/
def freshSessionRec : SessionRec :=
  { intel := emptyIntel, totalMessages := none, callbackSent := false }

/-- The shared secret the `x-api-key` header is compared against (server.js
line 22, default value). -/
def X_API_KEY : String := "GUVI_SECRET_2025"

/-- A parsed non-empty request body (server.js line 102).  A missing
`sessionId` and an empty one are both JS-falsy and behave identically, so
both are modelled as `""`; likewise a missing `message` or an empty
`message.text`. -/
structure RequestBody where
  sessionId : String
  message : Option Message
  conversationHistory : List Message
deriving DecidableEq, Repr

/-- `message?.text` with JS-falsy `undefined` collapsed to `""`. -/
def msgText : Option Message → String
  | none => ""
  | some m => m.text

/-- The validation check of server.js line 104: `!sessionId ||
!message?.text` fails the request. -/
def validBody (b : RequestBody) : Bool :=
  b.sessionId != "" && msgText b.message != ""

inductive RespStatus where
  | success
  | error
deriving DecidableEq, Repr

/-- The JSON response sent back to the caller, with the HTTP status code. -/
structure Response where
  status : RespStatus
  reply : Option String
  message : Option String
  httpCode : Nat
deriving DecidableEq, Repr

def unauthorizedResponse : Response :=
  { status := .error, reply := none, message := some "Unauthorized", httpCode := 401 }

def handshakeResponse : Response :=
  { status := .success, reply := none,
    message := some "Honeypot endpoint reachable", httpCode := 200 }

def invalidBodyResponse : Response :=
  { status := .error, reply := none,
    message := some "Invalid request body", httpCode := 400 }

def successResponse (reply : String) : Response :=
  { status := .success, reply := some reply, message := none, httpCode := 200 }

/-- The outbound report body built by `sendGuviCallback` (server.js lines
222-228); note `scamDetected` is hard-coded `true` there. -/
structure GuviPayload where
  sessionId : String
  scamDetected : Bool
  totalMessagesExchanged : Nat
  extractedIntelligence : Intel
  agentNotes : String
deriving DecidableEq, Repr

def mkGuviPayload (sessionId : String) (intel : Intel) (totalMessages : Nat)
    (notes : String) : GuviPayload :=
  { sessionId := sessionId, scamDetected := true,
    totalMessagesExchanged := totalMessages,
    extractedIntelligence := intel, agentNotes := notes }

/-- The observable actions of one handler run, in program order: the
`sessionStore.set` write (line 194), the `callbackSent = true` mark (line
202), the start of the awaited `sendGuviCallback` fetch (line 203), its
completion (the fetch is awaited; errors are caught inside
`sendGuviCallback`), and the `res.json` response (line 206). -/
inductive Event where
  | storeWrite (sid : String) (rec : SessionRec)
  | markNotified (sid : String)
  | dispatchStart (p : GuviPayload)
  | dispatchComplete (ok : Bool)
  | respond (r : Response)
deriving DecidableEq, Repr

def Event.isMarkNotified : Event → Bool
  | .markNotified _ => true
  | _ => false

def Event.isDispatchStart : Event → Bool
  | .dispatchStart _ => true
  | _ => false

def Event.isDispatchComplete : Event → Bool
  | .dispatchComplete _ => true
  | _ => false

def Event.isRespond : Event → Bool
  | .respond _ => true
  | _ => false

/-- Result of one run of `engageHandler`: the response, the session store
afterwards, the callback payload if `sendGuviCallback` was invoked, and the
ordered event trace. -/
structure TurnResult where
  response : Response
  store : Store
  dispatched : Option GuviPayload
  events : List Event

/-- server.js lines 87-209, one request.  `body = none` is the empty-body
liveness handshake; `llm` is the outcome of this turn's raced LLM call;
`netOk` is whether this turn's callback fetch (if any) succeeds — it is
caught and logged inside `sendGuviCallback` and affects nothing else. -/
def engageHandler (apiKey : String) (body : Option RequestBody)
    (llm : LlmOutcome) (netOk : Bool) (store : Store) : TurnResult :=
  if apiKey = X_API_KEY then
    match body with
    | none =>
        { response := handshakeResponse, store := store,
          dispatched := none, events := [.respond handshakeResponse] }
    | some b =>
        if validBody b then
          let aiData := resolveAiData llm
          let prev := (store b.sessionId).getD freshSessionRec
          let mergedIntel := mergeIntel prev.intel aiData.extractedIntelligence
          let totalMessages := b.conversationHistory.length + 2
          let baseRec : SessionRec :=
            { intel := mergedIntel, totalMessages := some totalMessages,
              callbackSent := prev.callbackSent }
          let resp := successResponse aiData.reply
          if aiData.scamDetected && aiData.isEngagementComplete && !prev.callbackSent then
            let payload := mkGuviPayload b.sessionId mergedIntel totalMessages aiData.agentNotes
            { response := resp,
              store := Store.set store b.sessionId { baseRec with callbackSent := true },
              dispatched := some payload,
              events := [.storeWrite b.sessionId baseRec, .markNotified b.sessionId,
                         .dispatchStart payload, .dispatchComplete netOk, .respond resp] }
          else
            { response := resp,
              store := Store.set store b.sessionId baseRec,
              dispatched := none,
              events := [.storeWrite b.sessionId baseRec, .respond resp] }
        else
          { response := invalidBodyResponse, store := store,
            dispatched := none, events := [.respond invalidBodyResponse] }
  else
    { response := unauthorizedResponse, store := store,
      dispatched := none, events := [.respond unauthorizedResponse] }

/-- One inbound turn: its header, body, the outcome of its LLM call and of
its callback fetch.  A list of these models any interleaving order of the
atomic (await-free) merge-and-mark sections of concurrent requests;
duplicate requests are repeated elements. -/
structure TurnInput where
  apiKey : String
  body : Option RequestBody
  llm : LlmOutcome
  netOk : Bool
deriving Repr

def runTurn (t : TurnInput) (s : Store) : TurnResult :=
  engageHandler t.apiKey t.body t.llm t.netOk s

/-- Process a sequence of turns against the shared session store,
collecting every callback payload that was dispatched. -/
def runTurns : List TurnInput → Store → Store × List GuviPayload
  | [], s => (s, [])
  | t :: ts, s =>
      let r := runTurn t s
      let rest := runTurns ts r.store
      (rest.1, r.dispatched.toList ++ rest.2)

/-- Whether the store already records a sent callback for `sid`. -/
def sessionNotified (s : Store) (sid : String) : Bool :=
  match s sid with
  | some rec => rec.callbackSent
  | none => false

/-- A turn that reaches the callback guard of server.js line 201 for
session `sid` with both flags true: authorized, valid, addressed to `sid`,
and its (possibly fallback) classification reports scam and completion. -/
def qualifies (t : TurnInput) (sid : String) : Bool :=
  (t.apiKey == X_API_KEY) &&
  (match t.body with
   | some b =>
       validBody b && (b.sessionId == sid) &&
       (resolveAiData t.llm).scamDetected && (resolveAiData t.llm).isEngagementComplete
   | none => false)

/-- Number of dispatched callback payloads addressed to session `sid`. -/
def dispatchCountFor (sid : String) (ps : List GuviPayload) : Nat :=
  (ps.filter (fun p => p.sessionId == sid)).length

theorem dispatchCountFor_append (sid : String) (ps qs : List GuviPayload) :
    dispatchCountFor sid (ps ++ qs) =
      dispatchCountFor sid ps + dispatchCountFor sid qs := by
  simp [dispatchCountFor]

theorem notified_after_turn (t : TurnInput) (s : Store) (sid : String) :
    sessionNotified (runTurn t s).store sid =
      (sessionNotified s sid || qualifies t sid) := by
  obtain ⟨apiKey, body, llm, netOk⟩ := t
  simp only [runTurn, engageHandler, qualifies]
  by_cases hk : apiKey = X_API_KEY
  · simp only [hk, if_pos rfl, beq_self_eq_true, Bool.true_and]
    cases body with
    | none => simp
    | some b =>
        by_cases hv : validBody b
        · simp only [hv, if_pos rfl, Bool.true_and]
          by_cases hsid : b.sessionId = sid
          · subst hsid
            have hprev : ((s b.sessionId).getD freshSessionRec).callbackSent =
                sessionNotified s b.sessionId := by
              cases h : s b.sessionId <;> simp [sessionNotified, h, freshSessionRec]
            cases hg : ((resolveAiData llm).scamDetected &&
                (resolveAiData llm).isEngagementComplete &&
                !((s b.sessionId).getD freshSessionRec).callbackSent) <;>
              simp only [hg, if_true, if_false, Bool.false_eq_true, if_neg] <;>
              simp only [sessionNotified, Store.set, if_pos rfl] <;>
              rw [hprev] at hg <;>
              cases hs : (resolveAiData llm).scamDetected <;>
              cases hc : (resolveAiData llm).isEngagementComplete <;>
              cases hn : sessionNotified s b.sessionId <;>
              simp_all [sessionNotified]
          · have hbe : (b.sessionId == sid) = false := by
              simpa [beq_iff_eq] using hsid
            cases hg : ((resolveAiData llm).scamDetected &&
                (resolveAiData llm).isEngagementComplete &&
                !((s b.sessionId).getD freshSessionRec).callbackSent) <;>
              simp [hg, sessionNotified, Store.set, hbe, Ne.symm hsid]
        · simp [hv]
  · have hke : (apiKey == X_API_KEY) = false := by simpa [beq_iff_eq] using hk
    simp [hk, hke]

theorem dispatch_of_turn (t : TurnInput) (s : Store) (sid : String) :
    dispatchCountFor sid (runTurn t s).dispatched.toList =
      if qualifies t sid && !sessionNotified s sid then 1 else 0 := by
  obtain ⟨apiKey, body, llm, netOk⟩ := t
  simp only [runTurn, engageHandler, qualifies]
  by_cases hk : apiKey = X_API_KEY
  · simp only [hk, if_pos rfl, beq_self_eq_true, Bool.true_and]
    cases body with
    | none => simp [dispatchCountFor]
    | some b =>
        by_cases hv : validBody b
        · simp only [hv, if_pos rfl, Bool.true_and]
          have hprev : ((s b.sessionId).getD freshSessionRec).callbackSent =
              sessionNotified s b.sessionId := by
            cases h : s b.sessionId <;> simp [sessionNotified, h, freshSessionRec]
          by_cases hsid : b.sessionId = sid
          · subst hsid
            cases hg : ((resolveAiData llm).scamDetected &&
                (resolveAiData llm).isEngagementComplete &&
                !((s b.sessionId).getD freshSessionRec).callbackSent) <;>
              simp only [hg, if_true, if_false, Bool.false_eq_true, if_neg] <;>
              rw [hprev] at hg <;>
              cases hs : (resolveAiData llm).scamDetected <;>
              cases hc : (resolveAiData llm).isEngagementComplete <;>
              cases hn : sessionNotified s b.sessionId <;>
              simp_all [dispatchCountFor, mkGuviPayload]
          · have hbe : (b.sessionId == sid) = false := by
              simpa [beq_iff_eq] using hsid
            cases hg : ((resolveAiData llm).scamDetected &&
                (resolveAiData llm).isEngagementComplete &&
                !((s b.sessionId).getD freshSessionRec).callbackSent) <;>
              simp [hg, dispatchCountFor, mkGuviPayload, hbe]
        · simp [hv, dispatchCountFor]
  · have hke : (apiKey == X_API_KEY) = false := by simpa [beq_iff_eq] using hk
    simp [hk, hke, dispatchCountFor]

theorem count_if_bool_step (q n a : Bool) :
    ((if (q && !n) = true then 1 else 0) +
        if (!(n || q) && a) = true then 1 else 0) =
      if (!n && (q || a)) = true then 1 else 0 := by
  cases q <;> cases n <;> cases a <;> decide

theorem runTurns_dispatch_count (ts : List TurnInput) (s : Store) (sid : String) :
    dispatchCountFor sid (runTurns ts s).2 =
      if !sessionNotified s sid && ts.any (fun t => qualifies t sid) then 1 else 0 := by
  induction ts generalizing s with
  | nil => simp [runTurns, dispatchCountFor]
  | cons t ts ih =>
      simp only [runTurns, dispatchCountFor_append, dispatch_of_turn,
        ih (runTurn t s).store, notified_after_turn, List.any_cons]
      exact count_if_bool_step (qualifies t sid) (sessionNotified s sid)
        (ts.any (fun t => qualifies t sid))

/-- Claim C1: starting from the initially empty store (the session's whole
lifetime), at most one outbound callback is ever dispatched for a given
session id; and if at least one turn — in particular when several
concurrent or duplicate turns — is authorized, valid and classified with
`scamDetected = true` and `isEngagementComplete = true`, then exactly one
callback is attempted. -/
theorem c1_at_most_once_callback (ts : List TurnInput) (sid : String) :
    dispatchCountFor sid (runTurns ts emptyStore).2 ≤ 1 ∧
    ((∃ t ∈ ts, qualifies t sid = true) →
      dispatchCountFor sid (runTurns ts emptyStore).2 = 1) := by
  have h := runTurns_dispatch_count ts emptyStore sid
  have hn : sessionNotified emptyStore sid = false := rfl
  rw [hn] at h
  simp only [Bool.not_false, Bool.true_and] at h
  constructor
  · rw [h]; split <;> simp
  · intro hex
    have ha : ts.any (fun t => qualifies t sid) = true := by
      rw [List.any_eq_true]
      exact hex
    rw [h, ha]
    simp

/-- Witness for C1: two duplicate turns for session "S1", both of whose
(fallback) classifications report scam and completion; exactly one callback
is dispatched. -/
theorem c1_witness :
    (∃ t ∈ [({ apiKey := X_API_KEY,
               body := some { sessionId := "S1",
                              message := some { sender := "scammer", text := "hello" },
                              conversationHistory := [] },
               llm := .timeout, netOk := true } : TurnInput),
            ({ apiKey := X_API_KEY,
               body := some { sessionId := "S1",
                              message := some { sender := "scammer", text := "hello" },
                              conversationHistory := [] },
               llm := .timeout, netOk := true } : TurnInput)],
        qualifies t "S1" = true) ∧
    dispatchCountFor "S1"
      (runTurns [({ apiKey := X_API_KEY,
                    body := some { sessionId := "S1",
                                   message := some { sender := "scammer", text := "hello" },
                                   conversationHistory := [] },
                    llm := .timeout, netOk := true } : TurnInput),
                 ({ apiKey := X_API_KEY,
                    body := some { sessionId := "S1",
                                   message := some { sender := "scammer", text := "hello" },
                                   conversationHistory := [] },
                    llm := .timeout, netOk := true } : TurnInput)] emptyStore).2 = 1 :=
  ⟨⟨_, List.mem_cons_self _ _, by decide⟩,
    (c1_at_most_once_callback _ "S1").2 ⟨_, List.mem_cons_self _ _, by decide⟩⟩

theorem getD_callbackSent (s : Store) (sid : String) :
    ((s sid).getD freshSessionRec).callbackSent = sessionNotified s sid := by
  cases h : s sid <;> simp [sessionNotified, h, freshSessionRec]

/-- Claim C5: for an authenticated, shape-valid request, if the LLM call
times out or its result is unparseable then the orchestrator substitutes
the one fixed fallback classification (`fallbackAiData`), never surfaces
the fault, and still returns a well-formed success response carrying the
fallback reply. -/
theorem c5_fallback_success_reply (b : RequestBody) (llm : LlmOutcome)
    (netOk : Bool) (store : Store) (hv : validBody b = true)
    (hf : llm = .timeout ∨ llm = .unparseable) :
    resolveAiData llm = fallbackAiData ∧
    (engageHandler X_API_KEY (some b) llm netOk store).response =
      successResponse fallbackAiData.reply ∧
    (engageHandler X_API_KEY (some b) llm netOk store).response.status = .success ∧
    (engageHandler X_API_KEY (some b) llm netOk store).response.reply =
      some fallbackAiData.reply := by
  have hres : resolveAiData llm = fallbackAiData := by
    rcases hf with h | h <;> subst h <;> rfl
  have hresp : (engageHandler X_API_KEY (some b) llm netOk store).response =
      successResponse fallbackAiData.reply := by
    simp only [engageHandler, if_pos, hv, if_true, hres]
    split <;> rfl
  exact ⟨hres, hresp, by rw [hresp]; rfl, by rw [hresp]; rfl⟩

/-- Witness for C5 at a concrete valid request with a timed-out LLM call. -/
theorem c5_witness :
    (validBody { sessionId := "S1",
                 message := some { sender := "scammer", text := "hi" },
                 conversationHistory := [] } = true ∧
      ((.timeout : LlmOutcome) = .timeout ∨ (.timeout : LlmOutcome) = .unparseable)) ∧
    (resolveAiData .timeout = fallbackAiData ∧
     (engageHandler X_API_KEY
        (some { sessionId := "S1",
                message := some { sender := "scammer", text := "hi" },
                conversationHistory := [] }) .timeout true emptyStore).response =
        successResponse fallbackAiData.reply ∧
     (engageHandler X_API_KEY
        (some { sessionId := "S1",
                message := some { sender := "scammer", text := "hi" },
                conversationHistory := [] }) .timeout true emptyStore).response.status = .success ∧
     (engageHandler X_API_KEY
        (some { sessionId := "S1",
                message := some { sender := "scammer", text := "hi" },
                conversationHistory := [] }) .timeout true emptyStore).response.reply =
        some fallbackAiData.reply) :=
  ⟨⟨by decide, Or.inl rfl⟩,
    c5_fallback_success_reply _ .timeout true emptyStore (by decide) (Or.inl rfl)⟩

/-- Claim C6: a request that fails authentication (wrong or missing shared
secret) or validation (missing session id or message text) is rejected
with an error response before any mutation: the session store is returned
unchanged, nothing is dispatched, and the only observable action is the
error response itself. -/
theorem c6_reject_before_mutation (apiKey : String) (body : Option RequestBody)
    (llm : LlmOutcome) (netOk : Bool) (store : Store)
    (h : apiKey ≠ X_API_KEY ∨ ∃ b, body = some b ∧ validBody b = false) :
    (engageHandler apiKey body llm netOk store).store = store ∧
    (engageHandler apiKey body llm netOk store).response.status = .error ∧
    (engageHandler apiKey body llm netOk store).dispatched = none ∧
    (engageHandler apiKey body llm netOk store).events =
      [Event.respond (engageHandler apiKey body llm netOk store).response] := by
  rcases h with hk | ⟨b, hb, hv⟩
  · simp [engageHandler, hk, unauthorizedResponse]
  · subst hb
    by_cases hk : apiKey = X_API_KEY
    · simp [engageHandler, hk, hv, invalidBodyResponse]
    · simp [engageHandler, hk, unauthorizedResponse]

/-- Witness for C6 at a concrete request with a wrong shared secret. -/
theorem c6_witness :
    (("WRONG_KEY" : String) ≠ X_API_KEY ∨
      ∃ b, (none : Option RequestBody) = some b ∧ validBody b = false) ∧
    ((engageHandler "WRONG_KEY" none .timeout true emptyStore).store = emptyStore ∧
     (engageHandler "WRONG_KEY" none .timeout true emptyStore).response.status = .error ∧
     (engageHandler "WRONG_KEY" none .timeout true emptyStore).dispatched = none ∧
     (engageHandler "WRONG_KEY" none .timeout true emptyStore).events =
       [Event.respond (engageHandler "WRONG_KEY" none .timeout true emptyStore).response]) :=
  ⟨Or.inl (by decide),
    c6_reject_before_mutation "WRONG_KEY" none .timeout true emptyStore (Or.inl (by decide))⟩

/-- Field-wise set inclusion of intelligence fragments. -/
def intelSubset (a b : Intel) : Prop :=
  a.bankAccounts.toFinset ⊆ b.bankAccounts.toFinset ∧
  a.upiIds.toFinset ⊆ b.upiIds.toFinset ∧
  a.phishingLinks.toFinset ⊆ b.phishingLinks.toFinset ∧
  a.phoneNumbers.toFinset ⊆ b.phoneNumbers.toFinset ∧
  a.suspiciousKeywords.toFinset ⊆ b.suspiciousKeywords.toFinset

theorem intelSubset_refl (a : Intel) : intelSubset a a :=
  ⟨subset_rfl, subset_rfl, subset_rfl, subset_rfl, subset_rfl⟩

theorem intelSubset_trans {a b c : Intel} (h1 : intelSubset a b)
    (h2 : intelSubset b c) : intelSubset a c :=
  ⟨h1.1.trans h2.1, h1.2.1.trans h2.2.1, h1.2.2.1.trans h2.2.2.1,
   h1.2.2.2.1.trans h2.2.2.2.1, h1.2.2.2.2.trans h2.2.2.2.2⟩

theorem intelSubset_mergeIntel_left (a b : Intel) : intelSubset a (mergeIntel a b) := by
  refine ⟨?_, ?_, ?_, ?_, ?_⟩ <;>
    simp only [mergeIntel, toFinset_jsSetDedup, List.toFinset_append] <;>
    exact Finset.subset_union_left

/-- How a valid authenticated turn rewrites the store: the net effect of
server.js lines 194-204 (the line-194 `set` followed, when the guard of
line 201 fires, by the line-202 mark). -/
theorem engage_store_valid (b : RequestBody) (llm : LlmOutcome) (netOk : Bool)
    (s : Store) (hv : validBody b = true) :
    (engageHandler X_API_KEY (some b) llm netOk s).store =
      Store.set s b.sessionId
        { intel := mergeIntel ((s b.sessionId).getD freshSessionRec).intel
            (resolveAiData llm).extractedIntelligence,
          totalMessages := some (b.conversationHistory.length + 2),
          callbackSent := ((s b.sessionId).getD freshSessionRec).callbackSent ||
            ((resolveAiData llm).scamDetected &&
              (resolveAiData llm).isEngagementComplete) } := by
  cases hs : (resolveAiData llm).scamDetected <;>
    cases hc : (resolveAiData llm).isEngagementComplete <;>
    cases hn : ((s b.sessionId).getD freshSessionRec).callbackSent <;>
    simp [engageHandler, hv, hs, hc, hn]

/-- What a valid authenticated turn dispatches: the payload of server.js
line 203 exactly when the guard of line 201 fires. -/
theorem engage_dispatched_valid (b : RequestBody) (llm : LlmOutcome)
    (netOk : Bool) (s : Store) (hv : validBody b = true) :
    (engageHandler X_API_KEY (some b) llm netOk s).dispatched =
      (if (resolveAiData llm).scamDetected &&
            (resolveAiData llm).isEngagementComplete &&
            !((s b.sessionId).getD freshSessionRec).callbackSent then
        some (mkGuviPayload b.sessionId
          (mergeIntel ((s b.sessionId).getD freshSessionRec).intel
            (resolveAiData llm).extractedIntelligence)
          (b.conversationHistory.length + 2) (resolveAiData llm).agentNotes)
      else none) := by
  cases hs : (resolveAiData llm).scamDetected <;>
    cases hc : (resolveAiData llm).isEngagementComplete <;>
    cases hn : ((s b.sessionId).getD freshSessionRec).callbackSent <;>
    simp [engageHandler, hv, hs, hc, hn]

theorem turn_store_mono (apiKey : String) (body : Option RequestBody)
    (llm : LlmOutcome) (netOk : Bool) (s : Store) (sid : String)
    (rec : SessionRec) (h : s sid = some rec) :
    ∃ rec', (engageHandler apiKey body llm netOk s).store sid = some rec' ∧
      (rec.callbackSent = true → rec'.callbackSent = true) ∧
      intelSubset rec.intel rec'.intel := by
  by_cases hk : apiKey = X_API_KEY
  · subst hk
    cases body with
    | none => exact ⟨rec, by simpa [engageHandler] using h, fun x => x, intelSubset_refl _⟩
    | some b =>
        by_cases hv : validBody b
        · rw [engage_store_valid b llm netOk s hv]
          by_cases hsid : sid = b.sessionId
          · subst hsid
            have hprev : (s b.sessionId).getD freshSessionRec = rec := by rw [h]; rfl
            refine ⟨{ intel := mergeIntel rec.intel (resolveAiData llm).extractedIntelligence,
                      totalMessages := some (b.conversationHistory.length + 2),
                      callbackSent := rec.callbackSent ||
                        ((resolveAiData llm).scamDetected &&
                          (resolveAiData llm).isEngagementComplete) }, ?_, ?_, ?_⟩
            · simp [Store.set, hprev]
            · intro hx; simp [hx]
            · exact intelSubset_mergeIntel_left _ _
          · refine ⟨rec, ?_, fun x => x, intelSubset_refl _⟩
            rw [show Store.set s b.sessionId _ sid = s sid from if_neg hsid]
            exact h
        · exact ⟨rec, by simpa [engageHandler, hv] using h, fun x => x, intelSubset_refl _⟩
  · exact ⟨rec, by simpa [engageHandler, hk] using h, fun x => x, intelSubset_refl _⟩

theorem runTurns_store_mono (ts : List TurnInput) (s : Store) (sid : String)
    (rec : SessionRec) (h : s sid = some rec) :
    ∃ rec', (runTurns ts s).1 sid = some rec' ∧
      (rec.callbackSent = true → rec'.callbackSent = true) ∧
      intelSubset rec.intel rec'.intel := by
  induction ts generalizing s rec with
  | nil => exact ⟨rec, h, fun x => x, intelSubset_refl _⟩
  | cons t ts ih =>
      obtain ⟨r1, h1, hc1, hs1⟩ := turn_store_mono t.apiKey t.body t.llm t.netOk s sid rec h
      obtain ⟨r2, h2, hc2, hs2⟩ := ih (runTurn t s).store r1 h1
      exact ⟨r2, h2, fun x => hc2 (hc1 x), intelSubset_trans hs1 hs2⟩

/-- Claim C7: accumulated intelligence only grows.  After any single
processed turn, and after any sequence of turns, the stored intelligence
sets for a session are supersets of what was stored before: a previously
observed value is never lost. -/
theorem c7_intel_only_grows (apiKey : String) (body : Option RequestBody)
    (llm : LlmOutcome) (netOk : Bool) (ts : List TurnInput) (store : Store)
    (sid : String) (rec : SessionRec) (h : store sid = some rec) :
    (∃ rec', (engageHandler apiKey body llm netOk store).store sid = some rec' ∧
      intelSubset rec.intel rec'.intel) ∧
    (∃ rec', (runTurns ts store).1 sid = some rec' ∧
      intelSubset rec.intel rec'.intel) := by
  constructor
  · obtain ⟨r, h1, _, h2⟩ := turn_store_mono apiKey body llm netOk store sid rec h
    exact ⟨r, h1, h2⟩
  · obtain ⟨r, h1, _, h2⟩ := runTurns_store_mono ts store sid rec h
    exact ⟨r, h1, h2⟩

def c7rec : SessionRec :=
  { intel := { bankAccounts := ["ACC-1"], upiIds := [], phishingLinks := [],
               phoneNumbers := [], suspiciousKeywords := [] },
    totalMessages := some 2, callbackSent := false }

def c7store : Store := Store.set emptyStore "S1" c7rec

def c7body : RequestBody :=
  { sessionId := "S1", message := some { sender := "scammer", text := "pay me" },
    conversationHistory := [] }

def c7turn : TurnInput :=
  { apiKey := X_API_KEY, body := some c7body, llm := .timeout, netOk := true }

/-- Witness for C7 at a concrete session holding one bank account. -/
theorem c7_witness :
    c7store "S1" = some c7rec ∧
    ((∃ rec', (engageHandler X_API_KEY (some c7body) .timeout true c7store).store "S1" =
        some rec' ∧ intelSubset c7rec.intel rec'.intel) ∧
     (∃ rec', (runTurns [c7turn] c7store).1 "S1" = some rec' ∧
        intelSubset c7rec.intel rec'.intel)) :=
  ⟨by decide,
    c7_intel_only_grows X_API_KEY (some c7body) .timeout true [c7turn] c7store "S1" c7rec
      (by decide)⟩

def c8data : AiData :=
  { scamDetected := false, reply := "ok", isEngagementComplete := false,
    extractedIntelligence := emptyIntel, agentNotes := "" }

def c8msg : Message := { sender := "scammer", text := "hello" }

def c8body1 : RequestBody :=
  { sessionId := "S1", message := some c8msg,
    conversationHistory := [c8msg, c8msg, c8msg] }

def c8body2 : RequestBody :=
  { sessionId := "S1", message := some c8msg, conversationHistory := [] }

/-- Counterexample to C8 as stated: the stored message count is recomputed
as `conversationHistory.length + 2` from each request, so a later request
carrying a shorter history rolls it back.  Turn 1 (history of 3) stores
count 5; the duplicate-style turn 2 (empty history) overwrites it with 2. -/
theorem c8_counterexample :
    ((engageHandler X_API_KEY (some c8body1) (.ok c8data) true emptyStore).store "S1").map
        SessionRec.totalMessages = some (some 5) ∧
    ((engageHandler X_API_KEY (some c8body2) (.ok c8data) true
        (engageHandler X_API_KEY (some c8body1) (.ok c8data) true emptyStore).store).store
          "S1").map SessionRec.totalMessages = some (some 2) ∧
    (2 : Nat) < 5 := by
  refine ⟨by decide, by decide, by decide⟩

/-- Claim C8 (amended): every stored-session mutation is monotone for the
`notified` flag and the accumulated intelligence — `callbackSent` only goes
false to true and never reverts, and intelligence only grows — both over a
single turn and over any turn sequence; the stored message count, however,
is recomputed from each request's history and is not monotone (see the
counterexample). -/
theorem c8_monotone_mutations (apiKey : String) (body : Option RequestBody)
    (llm : LlmOutcome) (netOk : Bool) (ts : List TurnInput) (store : Store)
    (sid : String) (rec : SessionRec) (h : store sid = some rec) :
    (∃ rec', (engageHandler apiKey body llm netOk store).store sid = some rec' ∧
      (rec.callbackSent = true → rec'.callbackSent = true) ∧
      intelSubset rec.intel rec'.intel) ∧
    (∃ rec', (runTurns ts store).1 sid = some rec' ∧
      (rec.callbackSent = true → rec'.callbackSent = true) ∧
      intelSubset rec.intel rec'.intel) :=
  ⟨turn_store_mono apiKey body llm netOk store sid rec h,
   runTurns_store_mono ts store sid rec h⟩

def c8rec : SessionRec :=
  { intel := { bankAccounts := [], upiIds := ["x@bank"], phishingLinks := [],
               phoneNumbers := [], suspiciousKeywords := [] },
    totalMessages := some 4, callbackSent := true }

def c8store : Store := Store.set emptyStore "S1" c8rec

def c8turn : TurnInput :=
  { apiKey := X_API_KEY, body := some c8body2, llm := .timeout, netOk := false }

/-- Witness for the amended C8 at a concrete already-notified session. -/
theorem c8_witness :
    c8store "S1" = some c8rec ∧
    ((∃ rec', (engageHandler X_API_KEY (some c8body2) .timeout false c8store).store "S1" =
        some rec' ∧ (c8rec.callbackSent = true → rec'.callbackSent = true) ∧
        intelSubset c8rec.intel rec'.intel) ∧
     (∃ rec', (runTurns [c8turn] c8store).1 "S1" = some rec' ∧
        (c8rec.callbackSent = true → rec'.callbackSent = true) ∧
        intelSubset c8rec.intel rec'.intel)) :=
  ⟨by decide,
    c8_monotone_mutations X_API_KEY (some c8body2) .timeout false [c8turn] c8store "S1" c8rec
      (by decide)⟩

/-- The ordered event trace of a turn that fires the callback guard
(server.js lines 194-206): store write, notified mark, dispatch start,
awaited dispatch completion, response. -/
theorem engage_events_notify (b : RequestBody) (llm : LlmOutcome) (netOk : Bool)
    (s : Store) (hv : validBody b = true)
    (hs : (resolveAiData llm).scamDetected = true)
    (hc : (resolveAiData llm).isEngagementComplete = true)
    (hn : sessionNotified s b.sessionId = false) :
    (engageHandler X_API_KEY (some b) llm netOk s).events =
      [.storeWrite b.sessionId
          { intel := mergeIntel ((s b.sessionId).getD freshSessionRec).intel
              (resolveAiData llm).extractedIntelligence,
            totalMessages := some (b.conversationHistory.length + 2),
            callbackSent := false },
       .markNotified b.sessionId,
       .dispatchStart (mkGuviPayload b.sessionId
          (mergeIntel ((s b.sessionId).getD freshSessionRec).intel
            (resolveAiData llm).extractedIntelligence)
          (b.conversationHistory.length + 2) (resolveAiData llm).agentNotes),
       .dispatchComplete netOk,
       .respond (successResponse (resolveAiData llm).reply)] := by
  have hn' : ((s b.sessionId).getD freshSessionRec).callbackSent = false := by
    rw [getD_callbackSent]; exact hn
  simp [engageHandler, hv, hs, hc, hn']

/-- Claim C9 (amended): when a turn triggers the callback (scam and
completion reported, session not yet notified), the notified mark is
recorded before the dispatch starts, and the stored flag is true afterwards
regardless of the dispatch outcome — a failed dispatch still leaves it
true; however, the handler awaits the dispatch, so the dispatch completes
before the reply is returned, not after. -/
theorem c9_mark_then_dispatch_then_reply (b : RequestBody) (llm : LlmOutcome)
    (netOk : Bool) (store : Store) (hv : validBody b = true)
    (hs : (resolveAiData llm).scamDetected = true)
    (hc : (resolveAiData llm).isEngagementComplete = true)
    (hn : sessionNotified store b.sessionId = false) :
    ((engageHandler X_API_KEY (some b) llm netOk store).events.findIdx
        Event.isMarkNotified <
      (engageHandler X_API_KEY (some b) llm netOk store).events.findIdx
        Event.isDispatchStart) ∧
    sessionNotified (engageHandler X_API_KEY (some b) llm netOk store).store
      b.sessionId = true ∧
    ((engageHandler X_API_KEY (some b) llm netOk store).events.findIdx
        Event.isDispatchComplete <
      (engageHandler X_API_KEY (some b) llm netOk store).events.findIdx
        Event.isRespond) := by
  rw [engage_events_notify b llm netOk store hv hs hc hn,
    engage_store_valid b llm netOk store hv]
  refine ⟨?_, ?_, ?_⟩
  · simp [List.findIdx_cons, Event.isMarkNotified, Event.isDispatchStart,
      Event.isDispatchComplete, Event.isRespond]
  · simp [sessionNotified, Store.set, hs, hc]
  · simp [List.findIdx_cons, Event.isMarkNotified, Event.isDispatchStart,
      Event.isDispatchComplete, Event.isRespond]

def c9body : RequestBody :=
  { sessionId := "S9", message := some { sender := "scammer", text := "send otp" },
    conversationHistory := [] }

/-- Counterexample to C9 as stated: on a concrete turn that triggers the
callback, the handler awaits `sendGuviCallback` before `res.json`, so the
dispatch-completion event precedes the respond event — the reply is NOT
returned without blocking on dispatch completion, and dispatch can never
complete after the reply is already returned. -/
theorem c9_counterexample :
    (engageHandler X_API_KEY (some c9body) .timeout true emptyStore).events.any
        Event.isDispatchStart = true ∧
    (engageHandler X_API_KEY (some c9body) .timeout true emptyStore).events.any
        Event.isRespond = true ∧
    ¬((engageHandler X_API_KEY (some c9body) .timeout true emptyStore).events.findIdx
          Event.isRespond <
        (engageHandler X_API_KEY (some c9body) .timeout true emptyStore).events.findIdx
          Event.isDispatchComplete) ∧
    ((engageHandler X_API_KEY (some c9body) .timeout true emptyStore).events.findIdx
        Event.isDispatchComplete <
      (engageHandler X_API_KEY (some c9body) .timeout true emptyStore).events.findIdx
        Event.isRespond) := by
  refine ⟨by decide, by decide, by decide, by decide⟩

/-- Witness for the amended C9 at a concrete triggering turn whose dispatch
fetch fails (`netOk = false`): the flag is still marked. -/
theorem c9_witness :
    (validBody c9body = true ∧
     (resolveAiData .timeout).scamDetected = true ∧
     (resolveAiData .timeout).isEngagementComplete = true ∧
     sessionNotified emptyStore c9body.sessionId = false) ∧
    (((engageHandler X_API_KEY (some c9body) .timeout false emptyStore).events.findIdx
        Event.isMarkNotified <
      (engageHandler X_API_KEY (some c9body) .timeout false emptyStore).events.findIdx
        Event.isDispatchStart) ∧
     sessionNotified (engageHandler X_API_KEY (some c9body) .timeout false emptyStore).store
       c9body.sessionId = true ∧
     ((engageHandler X_API_KEY (some c9body) .timeout false emptyStore).events.findIdx
        Event.isDispatchComplete <
      (engageHandler X_API_KEY (some c9body) .timeout false emptyStore).events.findIdx
        Event.isRespond)) :=
  ⟨⟨by decide, by decide, by decide, by decide⟩,
    c9_mark_then_dispatch_then_reply c9body .timeout false emptyStore
      (by decide) (by decide) (by decide) (by decide)⟩

/-- Claim C10: the deterministic fallback classification reports
`scamDetected = true` and `isEngagementComplete = true`, so on a valid
authenticated turn whose LLM call times out or returns an unparseable
result, a session whose notified flag is still false immediately gets its
one-time callback dispatched. -/
theorem c10_fallback_triggers_callback (b : RequestBody) (llm : LlmOutcome)
    (netOk : Bool) (store : Store) (hv : validBody b = true)
    (hf : llm = .timeout ∨ llm = .unparseable)
    (hn : sessionNotified store b.sessionId = false) :
    fallbackAiData.scamDetected = true ∧
    fallbackAiData.isEngagementComplete = true ∧
    ∃ p, (engageHandler X_API_KEY (some b) llm netOk store).dispatched = some p ∧
      p.sessionId = b.sessionId ∧ p.scamDetected = true := by
  have hres : resolveAiData llm = fallbackAiData := by
    rcases hf with h | h <;> subst h <;> rfl
  have hn' : ((store b.sessionId).getD freshSessionRec).callbackSent = false := by
    rw [getD_callbackSent]; exact hn
  refine ⟨rfl, rfl, ?_⟩
  rw [engage_dispatched_valid b llm netOk store hv, hres, hn']
  refine ⟨mkGuviPayload b.sessionId
      (mergeIntel ((store b.sessionId).getD freshSessionRec).intel
        fallbackAiData.extractedIntelligence)
      (b.conversationHistory.length + 2) fallbackAiData.agentNotes, ?_, rfl, rfl⟩
  rfl

def c10body : RequestBody :=
  { sessionId := "S10", message := some { sender := "scammer", text := "urgent" },
    conversationHistory := [] }

/-- Witness for C10 at a concrete valid turn with an LLM timeout. -/
theorem c10_witness :
    (validBody c10body = true ∧
     ((.timeout : LlmOutcome) = .timeout ∨ (.timeout : LlmOutcome) = .unparseable) ∧
     sessionNotified emptyStore c10body.sessionId = false) ∧
    (fallbackAiData.scamDetected = true ∧
     fallbackAiData.isEngagementComplete = true ∧
     ∃ p, (engageHandler X_API_KEY (some c10body) .timeout true emptyStore).dispatched =
        some p ∧ p.sessionId = c10body.sessionId ∧ p.scamDetected = true) :=
  ⟨⟨by decide, Or.inl rfl, by decide⟩,
    c10_fallback_triggers_callback c10body .timeout true emptyStore
      (by decide) (Or.inl rfl) (by decide)⟩

/-- The payload handed to the frontend dispatcher `sendFinalCallback`
(geminiService.ts; shaped after types.ts `FinalCallbackPayload`).  Only
`scamDetected` is inspected by the dispatcher. -/
structure CallbackPayload where
  sessionId : String
  scamDetected : Bool
  totalMessagesExchanged : Nat
  extractedIntelligence : Intel
  agentNotes : String
deriving DecidableEq, Repr

/-- Outcome of the dispatcher's `fetch`: an HTTP response with a status
code, or a transport error. -/
inductive FetchOutcome where
  | resp (status : Nat)
  | netFail
deriving DecidableEq, Repr

/-- `Response.ok` in the fetch API: HTTP status in [200, 300). -/
def responseOk (status : Nat) : Bool := 200 ≤ status && status < 300

inductive CallbackStatus where
  | success
  | aborted
  | error
deriving DecidableEq, Repr

structure CallbackResult where
  status : CallbackStatus
  code : Option Nat
  reason : Option String
  message : Option String
deriving DecidableEq, Repr

/-- geminiService.ts lines 73-97, `sendFinalCallback`: the strict guard
returns `aborted` before any fetch when `scamDetected` is false; otherwise
one fetch is attempted — any 2xx is success, any other status or transport
error is caught and reported as error.  The Bool component records whether
the outbound fetch was performed. -/
def sendFinalCallback (payload : CallbackPayload) (net : FetchOutcome) :
    CallbackResult × Bool :=
  if !payload.scamDetected then
    ({ status := .aborted, code := none, reason := some "Not a scam",
       message := none }, false)
  else
    match net with
    | .resp status =>
        if responseOk status then
          ({ status := .success, code := some status, reason := none,
             message := none }, true)
        else
          ({ status := .error, code := none, reason := none,
             message := some "Network failure" }, true)
    | .netFail =>
        ({ status := .error, code := none, reason := none,
           message := some "Network failure" }, true)

/-- Claim C4: for every payload whose scam flag is false, the dispatcher
refuses to send — it returns `aborted` and performs no outbound fetch,
whatever the other payload fields and the state of the network. -/
theorem c4_aborts_when_not_scam (payload : CallbackPayload) (net : FetchOutcome)
    (h : payload.scamDetected = false) :
    sendFinalCallback payload net =
      ({ status := .aborted, code := none, reason := some "Not a scam",
         message := none }, false) := by
  simp [sendFinalCallback, h]

/-- Witness for C4 at a concrete non-scam payload, with the network up. -/
theorem c4_witness :
    ({ sessionId := "S4", scamDetected := false, totalMessagesExchanged := 3,
       extractedIntelligence := emptyIntel, agentNotes := "n" } :
        CallbackPayload).scamDetected = false ∧
    sendFinalCallback
      { sessionId := "S4", scamDetected := false, totalMessagesExchanged := 3,
        extractedIntelligence := emptyIntel, agentNotes := "n" } (.resp 200) =
      ({ status := .aborted, code := none, reason := some "Not a scam",
         message := none }, false) :=
  ⟨rfl, c4_aborts_when_not_scam _ (.resp 200) rfl⟩

/-- Status of a dashboard session (types.ts `SessionState.status`; the
`ignored` variant is never assigned by App.tsx and is omitted). -/
inductive AppStatus where
  | active
  | completed
deriving DecidableEq, Repr

/-- The dashboard's per-session state (types.ts `SessionState`; the
wall-clock `lastUpdated` field is omitted — it is written but never read
by any modelled path). -/
structure AppSession where
  sessionId : String
  messages : List Message
  intel : Intel
  isScam : Bool
  agentNotes : String
  status : AppStatus
deriving DecidableEq, Repr

/-- The inbound request shape (types.ts `HoneyPotRequest`; the optional
`metadata` is never read and is omitted). -/
structure HoneyPotRequest where
  sessionId : String
  message : Message
  conversationHistory : List Message
deriving DecidableEq, Repr

def AppSessions : Type := String → Option AppSession

def emptyAppSessions : AppSessions := fun _ => none

inductive HPStatus where
  | success
  | error
deriving DecidableEq, Repr

structure HPResponse where
  status : HPStatus
  reply : Option String
  message : Option String
  scamDetected : Option Bool
deriving DecidableEq, Repr

/-- App.tsx lines 20-69, `handleEngineRequest`: API-key check, then the
classification result (`none` models a thrown `processHoneyPotMessage`),
then the `setSessions` functional update.  Line 55 stores
`isScam: result.scamDetected` directly, overwriting the previous value. -/
def handleEngineRequest (req : HoneyPotRequest) (providedApiKey configKey : String)
    (result : Option AiData) (sessions : AppSessions) : HPResponse × AppSessions :=
  if providedApiKey ≠ configKey then
    ({ status := .error, reply := none, message := some "401 Unauthorized",
       scamDetected := none }, sessions)
  else
    match result with
    | none =>
        ({ status := .error, reply := none, message := some "Simulation Error",
           scamDetected := none }, sessions)
    | some data =>
        let existing := (sessions req.sessionId).getD
          { sessionId := req.sessionId, messages := req.conversationHistory,
            intel := emptyIntel, isScam := false, agentNotes := "",
            status := .active }
        let updatedIntel := mergeIntel existing.intel data.extractedIntelligence
        let updated : AppSession :=
          { sessionId := existing.sessionId,
            messages := existing.messages ++
              [req.message, { sender := "user", text := data.reply }],
            intel := updatedIntel,
            isScam := data.scamDetected,
            agentNotes := data.agentNotes,
            status := if data.isEngagementComplete then .completed else .active }
        ({ status := .success, reply := some data.reply, message := none,
           scamDetected := some data.scamDetected },
         fun k => if k = req.sessionId then some updated else sessions k)

def c2req1 : HoneyPotRequest :=
  { sessionId := "S2", message := { sender := "scammer", text := "give otp" },
    conversationHistory := [] }

def c2req2 : HoneyPotRequest :=
  { sessionId := "S2", message := { sender := "scammer", text := "hello again" },
    conversationHistory := [] }

def c2dataTrue : AiData :=
  { scamDetected := true, reply := "oh no", isEngagementComplete := false,
    extractedIntelligence := emptyIntel, agentNotes := "scam" }

def c2dataFalse : AiData :=
  { scamDetected := false, reply := "ok", isEngagementComplete := false,
    extractedIntelligence := emptyIntel, agentNotes := "benign" }

/-- Counterexample to C2 as stated: App.tsx stores `isScam:
result.scamDetected` with no sticky policy.  After a turn classified
`scamDetected = true` the stored flag is true, but a later turn classified
false downgrades it back to false (and the server-side record of server.js
lines 194-198 keeps no scam flag at all). -/
theorem c2_counterexample :
    c2dataTrue.scamDetected = true ∧
    (((handleEngineRequest c2req1 X_API_KEY X_API_KEY (some c2dataTrue)
        emptyAppSessions).2 "S2").map AppSession.isScam = some true) ∧
    (((handleEngineRequest c2req2 X_API_KEY X_API_KEY (some c2dataFalse)
        (handleEngineRequest c2req1 X_API_KEY X_API_KEY (some c2dataTrue)
          emptyAppSessions).2).2 "S2").map AppSession.isScam = some false) := by
  refine ⟨rfl, by decide, by decide⟩

/-- Claim C2 (amended): the stored scam flag is last-writer-wins, not
sticky: after every successful authenticated turn the session's `isScam`
equals that turn's `scamDetected`, so a later false classification
downgrades a previously true flag. -/
theorem c2_scam_flag_last_writer_wins (req : HoneyPotRequest) (key : String)
    (data : AiData) (sessions : AppSessions) :
    ((handleEngineRequest req key key (some data) sessions).2 req.sessionId).map
        AppSession.isScam = some data.scamDetected := by
  simp [handleEngineRequest]
